import Mathlib

/-!
Valhalla: `meili::Measurement` and the traffic-segment matcher test.

A shallow embedding of

* `valhalla/meili/measurement.h` (the validated `Measurement` value object),
* `test/traffic_matcher.cc` (the `testable_matcher` subclass, the expected
  records `test_cases` and the comparison loop of `test_matcher`),

together with the IEEE 754 binary formats behind the C++ `float` and `double`
fields these files compare and subtract.
-/

namespace valhalla

/-! ## IEEE 754 binary formats -/

/-- A value of the IEEE 754 binary interchange format with `eb` exponent bits
and `mb` fraction bits, as its three bit fields. -/
structure ieee (eb mb : Nat) where
  sign : Bool
  exp : Fin (2 ^ eb)
  frac : Fin (2 ^ mb)
deriving DecidableEq

/-- C++ `float` (binary32). -/
abbrev float := ieee 8 23

/-- C++ `double` (binary64). -/
abbrev double := ieee 11 52

namespace ieee

variable {eb mb : Nat}

/-- The fields of the bit pattern `code` (exponent and fraction bits, the sign
bit apart). -/
def ofBits (eb mb : Nat) (s : Bool) (code : Nat) : ieee eb mb :=
  ⟨s, ⟨code / 2 ^ mb % 2 ^ eb, Nat.mod_lt _ (Nat.pos_pow_of_pos eb (by decide))⟩,
    ⟨code % 2 ^ mb, Nat.mod_lt _ (Nat.pos_pow_of_pos mb (by decide))⟩⟩

/-- Exponent field all ones and a non-zero fraction: not a number. -/
def isNaN (x : ieee eb mb) : Bool :=
  x.exp.val == 2 ^ eb - 1 && x.frac.val != 0

/-- Exponent field all ones and a zero fraction: an infinity. -/
def isInf (x : ieee eb mb) : Bool :=
  x.exp.val == 2 ^ eb - 1 && x.frac.val == 0

/-- The exponent and fraction bits read as one natural number. On values that
are not NaN this magnitude is monotone in the absolute value. -/
def mag (x : ieee eb mb) : Nat :=
  x.exp.val * 2 ^ mb + x.frac.val

/-- Sign-magnitude order key: on values that are not NaN, `a < b` as numbers
exactly when `key a < key b` (both zeroes have key 0). -/
def key (x : ieee eb mb) : Int :=
  if x.sign then -(x.mag : Int) else (x.mag : Int)

/-- C++ `a < b`: false as soon as one operand is NaN. -/
def lt (a b : ieee eb mb) : Bool :=
  !a.isNaN && !b.isNaN && decide (a.key < b.key)

/-- C++ `a > b`. -/
def gt (a b : ieee eb mb) : Bool :=
  lt b a

/-- C++ `a <= b`: false as soon as one operand is NaN. -/
def le (a b : ieee eb mb) : Bool :=
  !a.isNaN && !b.isNaN && decide (a.key ≤ b.key)

/-- C++ `a >= b`. -/
def ge (a b : ieee eb mb) : Bool :=
  le b a

/-- C++ `a == b`: false as soon as one operand is NaN, true on `+0 == -0`. -/
def eq (a b : ieee eb mb) : Bool :=
  !a.isNaN && !b.isNaN && decide (a.key = b.key)

/-- C++ `a != b`, the negation of `==` (so true as soon as one operand is NaN). -/
def ne (a b : ieee eb mb) : Bool :=
  !eq a b

/-- Unary minus: the sign bit flipped. -/
def neg (x : ieee eb mb) : ieee eb mb :=
  { x with sign := !x.sign }

/-- The value of `std::fabs`: the sign bit cleared. -/
def fabs (x : ieee eb mb) : ieee eb mb :=
  { x with sign := false }

/-- The exponent bias `2^(eb-1) - 1`. -/
def bias (eb : Nat) : Nat :=
  2 ^ (eb - 1) - 1

/-- The significand of a finite `x`, with its hidden bit when `x` is normal. -/
def significand (x : ieee eb mb) : Nat :=
  if x.exp.val = 0 then x.frac.val else 2 ^ mb + x.frac.val

/-- The exponent of a finite `x` counted from 1: subnormals share the exponent
of the least normal binade. The absolute value of `x` is
`significand x * 2 ^ (expo x - 1)` in units of the least subnormal. -/
def expo (x : ieee eb mb) : Nat :=
  if x.exp.val = 0 then 1 else x.exp.val

/-- The infinity of sign `s`. -/
def inf (eb mb : Nat) (s : Bool) : ieee eb mb :=
  ofBits eb mb s ((2 ^ eb - 1) * 2 ^ mb)

/-- The quiet NaN produced by an invalid operation. -/
def nan (eb mb : Nat) : ieee eb mb :=
  ofBits eb mb true ((2 ^ eb - 1) * 2 ^ mb + 2 ^ (mb - 1))

/-- The number of bits of `n` (0 for 0), by halving at most `fuel` times. -/
def bitlen : Nat → Nat → Nat
  | 0, _ => 0
  | fuel + 1, n => if n = 0 then 0 else bitlen fuel (n / 2) + 1

/-- Round-to-nearest-even of the magnitude `n * 2 ^ (e - 1)` (in units of the
least subnormal, `1 ≤ e`) with sign `s`. A magnitude with more than `mb + 1`
bits loses its low `sh` bits, a shorter one is shifted up as far as the
exponent allows; a carry out of the significand moves into the exponent field,
a result beyond the largest finite value is an infinity, and the magnitude 0
is the zero of sign `s`. -/
def round (eb mb : Nat) (s : Bool) (e n : Nat) : ieee eb mb :=
  let len := bitlen n n
  let sh := len - (mb + 1)
  let sl := min (e - 1) (mb + 1 - len)
  let q := n / 2 ^ sh
  let r := n % 2 ^ sh
  let up : Bool := decide (2 ^ sh < 2 * r) || (2 * r == 2 ^ sh && q % 2 == 1)
  let code := (e - 1 + sh - sl) * 2 ^ mb + q * 2 ^ sl + (if up then 1 else 0)
  if n = 0 then ofBits eb mb s 0
  else if (2 ^ eb - 1) * 2 ^ mb ≤ code then inf eb mb s
  else ofBits eb mb s code

/-- Both exponent and fraction fields zero: `+0` or `-0`. -/
def isZero (x : ieee eb mb) : Bool :=
  x.exp.val == 0 && x.frac.val == 0

/-- C++ `a - b` in the default rounding mode. A NaN operand is passed on,
infinities follow the extended reals (`inf - inf` is invalid), a zero operand
leaves the other one (`-0` only from `-0 - +0`); otherwise both significands
are aligned to the smaller exponent, subtracted exactly and the difference is
rounded. -/
def sub (a b : ieee eb mb) : ieee eb mb :=
  if a.isNaN then a
  else if b.isNaN then b
  else if a.isInf then (if b.isInf && a.sign == b.sign then nan eb mb else a)
  else if b.isInf then neg b
  else if a.isZero && b.isZero then ofBits eb mb (a.sign && !b.sign) 0
  else if a.isZero then neg b
  else if b.isZero then a
  else
    let e := min a.expo b.expo
    let na : Int := a.significand * 2 ^ (a.expo - e)
    let nb : Int := b.significand * 2 ^ (b.expo - e)
    let d : Int := (if a.sign then -na else na) - (if b.sign then -nb else nb)
    if d = 0 then ofBits eb mb false 0
    else round eb mb (decide (d < 0)) e d.natAbs

/-- Conversion to a wider format (`float` to `double`): exact on every value,
a NaN payload is moved to the top of the wider fraction. -/
def widen (eb2 mb2 : Nat) (x : ieee eb mb) : ieee eb2 mb2 :=
  if x.exp.val = 2 ^ eb - 1 then
    ofBits eb2 mb2 x.sign ((2 ^ eb2 - 1) * 2 ^ mb2 + x.frac.val * 2 ^ (mb2 - mb))
  else
    round eb2 mb2 x.sign (x.expo + bias eb2 - bias eb) (x.significand * 2 ^ (mb2 - mb))

/-- Conversion of an `int` to a floating format. -/
def ofInt (eb mb : Nat) (i : Int) : ieee eb mb :=
  round eb mb (decide (i < 0)) (bias eb + mb) i.natAbs

end ieee

/-- The `float` literal `0.f`. -/
def float_zero : float := ieee.ofBits 8 23 false 0

/-- The `float` literal `-1.f`. -/
def float_neg_one : float := ieee.ofBits 8 23 true (127 * 2 ^ 23)

/-- The `double` value `-1`. -/
def double_neg_one : double := ieee.ofBits 11 52 true (1023 * 2 ^ 52)

/-- Exceptions thrown by the embedded code, with their `what()` message. -/
inductive exception where
  | invalid_argument (what : String)
  | logic_error (what : String)
deriving DecidableEq, Repr

deriving instance DecidableEq for Except

namespace meili

/-- The class `Measurement` of `measurement.h`: its four private data
members. `PointLL` (`midgard::PointLL`) is declared outside these sources and
is a parameter. -/
structure Measurement (PointLL : Type) where
  lnglat_ : PointLL
  gps_accuracy_ : float
  search_radius_ : float
  epoch_time_ : double

namespace Measurement

variable {PointLL : Type}

/-- The constructor `Measurement::Measurement`: the members are initialised
from the arguments, then the two checks run in source order. -/
def construct (lnglat : PointLL) (gps_accuracy search_radius : float)
    (epoch_time : double) : Except exception (Measurement PointLL) :=
  let self : Measurement PointLL :=
    { lnglat_ := lnglat, gps_accuracy_ := gps_accuracy,
      search_radius_ := search_radius, epoch_time_ := epoch_time }
  if self.gps_accuracy_.lt float_zero then
    .error (exception.invalid_argument "non-negative gps_accuracy required")
  else if self.search_radius_.lt float_zero then
    .error (exception.invalid_argument "non-negative search_radius required")
  else
    .ok self

/-- The constructor called without its last argument: `epoch_time` takes the
default `-1.f`, converted to `double`. -/
def construct_default (lnglat : PointLL) (gps_accuracy search_radius : float) :
    Except exception (Measurement PointLL) :=
  construct lnglat gps_accuracy search_radius (ieee.widen 11 52 float_neg_one)

/-- The accessor `lnglat()`. -/
def lnglat (m : Measurement PointLL) : PointLL := m.lnglat_

/-- The accessor `search_radius()`. -/
def search_radius (m : Measurement PointLL) : float := m.search_radius_

/-- The accessor `gps_accuracy()`. -/
def gps_accuracy (m : Measurement PointLL) : float := m.gps_accuracy_

/-- The accessor `epoch_time()`. -/
def epoch_time (m : Measurement PointLL) : double := m.epoch_time_

end Measurement

end meili

end valhalla


/-! ## `test/traffic_matcher.cc` -/

namespace valhalla

/-- The `float` literal `.5f`. -/
def float_0_5 : float := ieee.ofBits 8 23 false (126 * 2 ^ 23)

/-- The `float` literal `1.f`. -/
def float_1 : float := ieee.ofBits 8 23 false (127 * 2 ^ 23)

/-- The `float` literal `2.5f`. -/
def float_2_5 : float := ieee.ofBits 8 23 false (128 * 2 ^ 23 + 2 ^ 21)

/-- The `float` literal `3.5f`. -/
def float_3_5 : float := ieee.ofBits 8 23 false (128 * 2 ^ 23 + 3 * 2 ^ 21)

/-- The `float` literal `5.f`. -/
def float_5 : float := ieee.ofBits 8 23 false (129 * 2 ^ 23 + 2 ^ 21)

/-- The `float` literal `6.f`. -/
def float_6 : float := ieee.ofBits 8 23 false (129 * 2 ^ 23 + 2 ^ 22)

/-- The `double` literal `.25`. -/
def double_0_25 : double := ieee.ofBits 11 52 false (1021 * 2 ^ 52)

/-- An `int` constant initialising or compared with a `double`. -/
def double_of_int (i : Int) : double := ieee.ofInt 11 52 i

/-- A `float` literal initialising a `double`. -/
def double_of_float (x : float) : double := ieee.widen 11 52 x

namespace meili

/-- Modelled from the spec: `meili::traffic_segment_t` is declared in
`meili/traffic_segment_matcher.h`, outside these sources. The fields are the
TrafficSegmentRecord of the data model in the order the test names them
(id, start time, start idx, end time, end idx, length): a `baldr::GraphId`
value, `double` times, unsigned shape indices and an `int` length. -/
structure traffic_segment_t where
  segment_id : Nat
  start_time : double
  begin_shape_index : Nat
  end_time : double
  end_shape_index : Nat
  length : Int
deriving DecidableEq

/-- Modelled from the spec: `meili::interpolation_t` is declared outside these
sources. The InterpolationPoint of the data model: the edge identifier, the
interpolated entry/exit distance along the edge and entry/exit time, and the
Measurement-sequence index the point corresponds to. -/
structure interpolation_t where
  edge : Nat
  shape_index : Nat
  entry_distance : double
  exit_distance : double
  entry_time : double
  exit_time : double
deriving DecidableEq

/-- Modelled from the spec: what the graph-storage reader exposes for an edge
that belongs to a traffic segment: the segment identifier, the segment's total
cataloged length, and whether the edge is the true first / last edge of the
segment. -/
structure segment_association where
  segment_id : Nat
  length : Nat
  starts_segment : Bool
  ends_segment : Bool
deriving DecidableEq

/-- Modelled from the spec: the traffic-segment association, from an edge
identifier to zero or one segment. -/
abbrev association := Nat → Option segment_association

/-- Modelled from the spec: a maximal run under construction: its first and
last InterpolationPoint with the association of their edges. -/
structure run where
  first : interpolation_t
  first_edge : segment_association
  last : interpolation_t
  last_edge : segment_association

/-- Modelled from the spec: the TrafficSegmentRecord of one run (Segment
Former). `start_time` is the first point's entry time when the run's first
edge is the first edge of the segment and -1 otherwise, `end_time` is the
symmetric rule on the last edge, and `length` is the cataloged length when both
times are known (not the sentinel -1) and -1 otherwise. The shape indices are
those of the first and last point. -/
def run_record (r : run) : traffic_segment_t :=
  let start_time := if r.first_edge.starts_segment then r.first.entry_time else double_of_int (-1)
  let end_time := if r.last_edge.ends_segment then r.last.exit_time else double_of_int (-1)
  let full := start_time.ne (double_of_int (-1)) && end_time.ne (double_of_int (-1))
  { segment_id := r.first_edge.segment_id
    start_time := start_time
    begin_shape_index := r.first.shape_index
    end_time := end_time
    end_shape_index := r.last.shape_index
    length := if full then (r.first_edge.length : Int) else -1 }

/-- Modelled from the spec: the records of the run under construction, if
there is one. -/
def close_run : Option run → List traffic_segment_t
  | none => []
  | some r => [run_record r]

/-- Modelled from the spec: the Segment Former on one interpolation group.
Consecutive points whose edges share the same segment id extend the current
run; a point on another segment closes the run and opens a new one; a point
whose edge maps to no segment produces no record and breaks the run. -/
def form_group (g : association) : Option run → List interpolation_t → List traffic_segment_t
  | cur, [] => close_run cur
  | cur, p :: ps =>
    match g p.edge with
    | none => close_run cur ++ form_group g none ps
    | some a =>
      match cur with
      | none => form_group g (some ⟨p, a, p, a⟩) ps
      | some r =>
        if r.first_edge.segment_id = a.segment_id then
          form_group g (some { r with last := p, last_edge := a }) ps
        else
          run_record r :: form_group g (some ⟨p, a, p, a⟩) ps

/-- Modelled from the spec: `TrafficSegmentMatcher::form_segments`, defined
outside these sources (Segment Former). Each interpolation group is formed
independently and the records are concatenated in group order. The clause that
the first run of the first group is always open at its start is not part of
the model: the expected records of the fourth test case start with a full
record. -/
def form_segments (g : association) : List (List interpolation_t) → List traffic_segment_t
  | [] => []
  | group :: groups => form_group g none group ++ form_segments g groups

/-- The two virtual methods of the base class `meili::TrafficSegmentMatcher`
that `testable_matcher` overrides. The base class is defined outside these
sources and its methods are parameters: a call throws or returns a value, and
`form_segments` may change the `GraphReader` it receives by reference. -/
structure TrafficSegmentMatcher (MatchResult MapMatcher GraphReader : Type) where
  interpolate_matches :
    List MatchResult → MapMatcher → Except exception (List (List interpolation_t))
  form_segments :
    List (List interpolation_t) → GraphReader →
      Except exception (List traffic_segment_t) × GraphReader

end meili

namespace traffic_matcher

open meili

/-- The class `testable_matcher`: the base-class part and the four `mutable`
members. -/
structure testable_matcher (MatchResult MapMatcher GraphReader : Type) where
  base : TrafficSegmentMatcher MatchResult MapMatcher GraphReader
  «matches» : List MatchResult
  matcher : MapMatcher
  interpolations : List (List interpolation_t)
  segments : List traffic_segment_t

namespace testable_matcher

variable {MatchResult MapMatcher GraphReader : Type}

/-- The override `testable_matcher::interpolate_matches`: `matches` and
`matcher` are assigned, then `interpolations` is assigned the value of the
base-class call and returned; an exception of the base call leaves
`interpolations` as it was. The result is the returned value (or exception)
with the object after the call. -/
def interpolate_matches (self : testable_matcher MatchResult MapMatcher GraphReader)
    (r : List MatchResult) (m : MapMatcher) :
    Except exception (List (List interpolation_t)) ×
      testable_matcher MatchResult MapMatcher GraphReader :=
  let self1 := { self with «matches» := r, matcher := m }
  match self1.base.interpolate_matches r m with
  | .error e => (.error e, self1)
  | .ok v =>
    let self2 := { self1 with interpolations := v }
    (.ok self2.interpolations, self2)

/-- The override `testable_matcher::form_segments`: `segments` is assigned the
value of the base-class call and returned. The result is the returned value (or
exception), the object after the call and the `GraphReader` after the call. -/
def form_segments (self : testable_matcher MatchResult MapMatcher GraphReader)
    (i : List (List interpolation_t)) (r : GraphReader) :
    Except exception (List traffic_segment_t) ×
      testable_matcher MatchResult MapMatcher GraphReader × GraphReader :=
  match self.base.form_segments i r with
  | (.error e, r1) => (.error e, self, r1)
  | (.ok v, r1) =>
    let self1 := { self with segments := v }
    (.ok self1.segments, self1, r1)

end testable_matcher

/-- One point of a request's `trace` array. -/
structure trace_point where
  lon : ℚ
  lat : ℚ
  time : ℚ

/-- The table `test_cases`: each request (its `trace` array) with the
expected records `ots_t{id, start time, start idx, end time, end idx, length}`. -/
def test_cases : List (List trace_point × List traffic_segment_t) :=
  [ -- partial, partial
    ([⟨-76.376045, 40.539207, 0⟩, ⟨-76.357056, 40.541309, 1⟩],
      [⟨0, double_of_int (-1), 0, double_of_float float_0_5, 0, -1⟩,
       ⟨0, double_of_float float_0_5, 0, double_of_int (-1), 1, -1⟩]),
    -- partial, full, partial
    ([⟨-76.376045, 40.539207, 0⟩, ⟨-76.351089, 40.541504, 3⟩],
      [⟨0, double_of_int (-1), 0, double_of_float float_1, 0, -1⟩,
       ⟨0, double_of_float float_1, 0, double_of_float float_2_5, 0, 1000⟩,
       ⟨0, double_of_float float_2_5, 0, double_of_int (-1), 1, -1⟩]),
    -- partial, full, full, full
    ([⟨-76.38126, 40.55602, 0⟩, ⟨-76.35784, 40.56786, 6⟩],
      [⟨0, double_of_int (-1), 0, double_of_float float_0_5, 0, -1⟩,
       ⟨0, double_of_float float_0_5, 0, double_of_float float_1, 0, 200⟩,
       ⟨0, double_of_float float_1, 0, double_of_float float_3_5, 0, 1000⟩,
       ⟨0, double_of_float float_3_5, 0, double_of_float float_6, 1, 1000⟩]),
    -- full, full, partial
    ([⟨-76.35784, 40.56786, 0⟩, ⟨-76.38126, 40.55602, 6⟩],
      [⟨0, double_of_float float_zero, 0, double_of_float float_2_5, 0, 1000⟩,
       ⟨0, double_of_float float_2_5, 0, double_of_float float_5, 0, 1000⟩,
       ⟨0, double_of_float float_5, 0, double_of_int (-1), 0, -1⟩]) ]

/-- The C++ `int` difference `x - y` as the compiled test computes it: the
mathematical difference reduced to the 32-bit two's complement range, so that
`INT_MAX - INT_MIN` is `-1`. -/
def int_sub (x y : Int) : Int :=
  (x - y + 2 ^ 31) % 2 ^ 32 - 2 ^ 31

/-- The body of the inner loop of `test_matcher` for an expected record `a` and
a produced record `b`: the five checks in source order, each throwing
`std::logic_error`. The lengths are subtracted as `int`s; `std::fabs` converts
that `int` to `double` exactly, so its comparison with 50 is decided on the
absolute value of the integer. -/
def compare_record (a b : traffic_segment_t) : Except exception Unit :=
  if a.begin_shape_index != b.begin_shape_index then
    .error (exception.logic_error "begin_shape_index mismatch")
  else if a.end_shape_index != b.end_shape_index then
    .error (exception.logic_error "end_shape_index mismatch")
  else if (ieee.fabs (a.start_time.sub b.start_time)).gt double_0_25 then
    .error (exception.logic_error "start time is out of tolerance")
  else if (ieee.fabs (a.end_time.sub b.end_time)).gt double_0_25 then
    .error (exception.logic_error "end time is out of tolerance")
  else if decide (50 < (int_sub a.length b.length).natAbs) then
    .error (exception.logic_error "length is out of tolerance")
  else
    .ok ()

/-- The inner loop of `test_matcher` over the indices of the expected list,
entered with lists of equal size: record `i` of one list is compared with
record `i` of the other, and the first failing check throws. -/
def compare_loop : List traffic_segment_t → List traffic_segment_t → Except exception Unit
  | a :: a_segs, b :: b_segs =>
    match compare_record a b with
    | .error e => .error e
    | .ok _ => compare_loop a_segs b_segs
  | _, _ => .ok ()

/-- The comparison of `test_matcher` for one test case: the expected records
`a_segs` against the produced records `b_segs` (`matcher.segments`). -/
def compare_segments (a_segs b_segs : List traffic_segment_t) : Except exception Unit :=
  if a_segs.length != b_segs.length then
    .error (exception.logic_error "wrong number of segments matched")
  else
    compare_loop a_segs b_segs

/-- The acceptance condition in the words of the specification: the same
number of records and, at every index, equal shape indices, time differences
of at most 0.25 in absolute value and a length difference of at most 50. -/
def within_tolerance (a b : List traffic_segment_t) : Prop :=
  a.length = b.length ∧
    ∀ (i : Nat) (ha : i < a.length) (hb : i < b.length),
      a[i].begin_shape_index = b[i].begin_shape_index ∧
      a[i].end_shape_index = b[i].end_shape_index ∧
      (ieee.fabs (a[i].start_time.sub b[i].start_time)).le double_0_25 = true ∧
      (ieee.fabs (a[i].end_time.sub b[i].end_time)).le double_0_25 = true ∧
      |a[i].length - b[i].length| ≤ 50

/-- A time difference the comparison lets through: at most 0.25 in absolute
value, or not a number. -/
def time_accepted (x y : double) : Prop :=
  (ieee.fabs (x.sub y)).le double_0_25 = true ∨ (x.sub y).isNaN = true

/-- The shape-index condition in the words of the specification, for a trace
of `N` points: every record has `0 ≤ begin ≤ end ≤ N - 1`, and of two
consecutive records the earlier ends no later than the later begins. -/
def shape_intervals_ordered (N : Nat) (l : List traffic_segment_t) : Prop :=
  (∀ r ∈ l, (0 : Int) ≤ r.begin_shape_index ∧ r.begin_shape_index ≤ r.end_shape_index ∧
      (r.end_shape_index : Int) ≤ (N : Int) - 1) ∧
    List.Chain' (fun r1 r2 => r1.end_shape_index ≤ r2.begin_shape_index) l

/-- The full/partial condition in the words of the specification: `length` is
known (not -1) exactly when both `start_time` and `end_time` are known. -/
def length_known_iff_times_known (r : traffic_segment_t) : Prop :=
  r.length ≠ -1 ↔
    (r.start_time.ne (double_of_int (-1)) = true ∧ r.end_time.ne (double_of_int (-1)) = true)

instance (r : traffic_segment_t) : Decidable (length_known_iff_times_known r) := by
  delta length_known_iff_times_known
  infer_instance

/-- An association used to run the Segment Former on concrete input: edges 1
and 2 are the first and last edge of segment 7 (length 1000), edge 3 is the
first edge of segment 8 (length 200), every other edge has no segment. -/
def example_association : meili.association := fun e =>
  if e = 1 then some ⟨7, 1000, true, false⟩
  else if e = 2 then some ⟨7, 1000, false, true⟩
  else if e = 3 then some ⟨8, 200, true, false⟩
  else none

/-- One interpolation group over the edges 1, 2, 3 of `example_association`
for a two-point trace, with entry/exit times 0, 1, 5 and 6. -/
def example_groups : List (List meili.interpolation_t) :=
  [[⟨1, 0, double_of_int 0, double_of_int 0, double_of_int 0, double_of_int 1⟩,
    ⟨2, 0, double_of_int 0, double_of_int 0, double_of_int 1, double_of_int 5⟩,
    ⟨3, 1, double_of_int 0, double_of_int 0, double_of_int 5, double_of_int 6⟩]]

/-- A base class whose `form_segments` is the modelled Segment Former over
`example_association` and whose `interpolate_matches` returns
`example_groups`. -/
def example_base : meili.TrafficSegmentMatcher Nat Unit Unit where
  interpolate_matches := fun _ _ => .ok example_groups
  form_segments := fun i r => (.ok (meili.form_segments example_association i), r)

/-- A `testable_matcher` over `example_base` before any call. -/
def example_matcher : testable_matcher Nat Unit Unit :=
  ⟨example_base, [], (), [], []⟩

end traffic_matcher

end valhalla

/-! ## Theorems -/

namespace valhalla

namespace ieee

variable {eb mb : Nat}

theorem lt_eq_true_iff (a b : ieee eb mb) :
    a.lt b = true ↔ a.isNaN = false ∧ b.isNaN = false ∧ a.key < b.key := by
  simp [lt, and_assoc]

theorem le_eq_true_iff (a b : ieee eb mb) :
    a.le b = true ↔ a.isNaN = false ∧ b.isNaN = false ∧ a.key ≤ b.key := by
  simp [le, and_assoc]

theorem eq_eq_true_iff (a b : ieee eb mb) :
    a.eq b = true ↔ a.isNaN = false ∧ b.isNaN = false ∧ a.key = b.key := by
  simp [eq, and_assoc]

/-- Two operands that compare `==` do not compare `<`. -/
theorem lt_eq_false_of_eq {a b : ieee eb mb} (h : a.eq b = true) : a.lt b = false := by
  rw [eq_eq_true_iff] at h
  cases hlt : a.lt b
  · rfl
  · rw [lt_eq_true_iff] at hlt
    omega

/-- Two operands with `b <= a` do not compare `a < b`. -/
theorem lt_eq_false_of_ge {a b : ieee eb mb} (h : a.ge b = true) : a.lt b = false := by
  unfold ge at h
  rw [le_eq_true_iff] at h
  cases hlt : a.lt b
  · rfl
  · rw [lt_eq_true_iff] at hlt
    omega

/-- Without a NaN operand, `>=` is the negation of `<`. -/
theorem ge_eq_not_lt {a b : ieee eb mb} (ha : a.isNaN = false) (hb : b.isNaN = false) :
    a.ge b = !a.lt b := by
  simp only [ge, le, lt, ha, hb, Bool.not_false, Bool.true_and]
  by_cases h : a.key < b.key
  · have h2 : ¬ b.key ≤ a.key := by omega
    simp [h, h2]
  · have h2 : b.key ≤ a.key := by omega
    simp [h, h2]

end ieee

namespace meili.Measurement

variable {PointLL : Type}

/-- The constructor succeeds exactly when neither check fires, and then
returns the members initialised from the arguments. -/
theorem construct_eq_ok_iff (lnglat : PointLL) (gps_accuracy search_radius : float)
    (epoch_time : double) (m : Measurement PointLL) :
    construct lnglat gps_accuracy search_radius epoch_time = .ok m ↔
      gps_accuracy.lt float_zero = false ∧ search_radius.lt float_zero = false ∧
        m = ⟨lnglat, gps_accuracy, search_radius, epoch_time⟩ := by
  dsimp only [construct]
  cases h1 : gps_accuracy.lt float_zero <;> cases h2 : search_radius.lt float_zero <;>
    simp only [if_true, if_false, Bool.false_eq_true, reduceCtorEq, false_and, and_false,
      true_and, Except.ok.injEq, eq_comm]

/-- C1: a negative `gps_accuracy` or a negative `search_radius` makes the
constructor throw `std::invalid_argument`, whatever the other arguments are,
and `gps_accuracy == 0` with `search_radius == 0` (either zero) is accepted. -/
theorem construct_negative_fails_zero_succeeds (lnglat : PointLL)
    (gps_accuracy search_radius : float) (epoch_time : double) :
    ((gps_accuracy.lt float_zero = true ∨ search_radius.lt float_zero = true) →
      ∃ what, construct lnglat gps_accuracy search_radius epoch_time =
        .error (exception.invalid_argument what)) ∧
    (gps_accuracy.eq float_zero = true → search_radius.eq float_zero = true →
      ∃ m, construct lnglat gps_accuracy search_radius epoch_time = .ok m) := by
  constructor
  · intro h
    dsimp only [construct]
    cases h1 : gps_accuracy.lt float_zero
    · cases h2 : search_radius.lt float_zero
      · simp [h1, h2] at h
      · exact ⟨_, rfl⟩
    · exact ⟨_, rfl⟩
  · intro ha hr
    refine ⟨⟨lnglat, gps_accuracy, search_radius, epoch_time⟩, ?_⟩
    rw [construct_eq_ok_iff]
    exact ⟨ieee.lt_eq_false_of_eq ha, ieee.lt_eq_false_of_eq hr, rfl⟩

/-- C1 at `gps_accuracy = -1.f` (rejected) and at `-0.f`, `0.f` (accepted). -/
theorem construct_negative_fails_zero_succeeds_witness :
    (∃ what, construct () float_neg_one float_zero double_neg_one =
        .error (exception.invalid_argument what)) ∧
    (∃ m, construct () (ieee.neg float_zero) float_zero double_neg_one = .ok m) :=
  ⟨(construct_negative_fails_zero_succeeds () float_neg_one float_zero double_neg_one).1
      (Or.inl (by decide)),
    (construct_negative_fails_zero_succeeds () (ieee.neg float_zero) float_zero
      double_neg_one).2 (by decide) (by decide)⟩

/-- C2, evaluated at a NaN `gps_accuracy`: `NaN < 0.f` is false, so the
constructor returns the object, whose `gps_accuracy() >= 0` is false. -/
theorem construct_nan_gps_accuracy :
    ∃ m : Measurement Unit,
      construct () (ieee.nan 8 23) float_zero double_neg_one = .ok m ∧
        m.gps_accuracy.ge float_zero = false ∧ m.search_radius.ge float_zero = true :=
  ⟨⟨(), ieee.nan 8 23, float_zero, double_neg_one⟩, rfl, by decide, by decide⟩

/-- The bound does hold when neither float argument is NaN: the constructed
object then has `gps_accuracy() >= 0` and `search_radius() >= 0`. -/
theorem constructed_nonnegative_of_not_nan (lnglat : PointLL)
    (gps_accuracy search_radius : float) (epoch_time : double) (m : Measurement PointLL)
    (ha : gps_accuracy.isNaN = false) (hr : search_radius.isNaN = false)
    (h : construct lnglat gps_accuracy search_radius epoch_time = .ok m) :
    m.gps_accuracy.ge float_zero = true ∧ m.search_radius.ge float_zero = true := by
  rw [construct_eq_ok_iff] at h
  obtain ⟨h1, h2, rfl⟩ := h
  have hz : float_zero.isNaN = false := by decide
  constructor
  · show ieee.ge gps_accuracy float_zero = true
    rw [ieee.ge_eq_not_lt ha hz, h1]
    rfl
  · show ieee.ge search_radius float_zero = true
    rw [ieee.ge_eq_not_lt hr hz, h2]
    rfl

/-- C3: a constructed `Measurement` returns through its accessors exactly the
four constructor arguments. -/
theorem accessors_return_arguments (lnglat : PointLL) (gps_accuracy search_radius : float)
    (epoch_time : double) (m : Measurement PointLL)
    (h : construct lnglat gps_accuracy search_radius epoch_time = .ok m) :
    m.lnglat = lnglat ∧ m.gps_accuracy = gps_accuracy ∧
      m.search_radius = search_radius ∧ m.epoch_time = epoch_time := by
  rw [construct_eq_ok_iff] at h
  obtain ⟨-, -, rfl⟩ := h
  exact ⟨rfl, rfl, rfl, rfl⟩

/-- C3 at accuracy `0.f`, radius `0.f`, time `-1`. -/
theorem accessors_return_arguments_witness :
    construct () float_zero float_zero double_neg_one =
        .ok ⟨(), float_zero, float_zero, double_neg_one⟩ ∧
      (⟨(), float_zero, float_zero, double_neg_one⟩ : Measurement Unit).epoch_time =
        double_neg_one :=
  ⟨rfl,
    (accessors_return_arguments () float_zero float_zero double_neg_one
      ⟨(), float_zero, float_zero, double_neg_one⟩ rfl).2.2.2⟩

/-- C4: with `gps_accuracy >= 0` and `search_radius >= 0` the constructor
called without a timestamp succeeds, and whenever that call succeeds
`epoch_time()` is the double `-1` (it compares `==` to `-1`). -/
theorem construct_default_epoch_time (lnglat : PointLL) (gps_accuracy search_radius : float) :
    (gps_accuracy.ge float_zero = true → search_radius.ge float_zero = true →
      ∃ m, construct_default lnglat gps_accuracy search_radius = .ok m ∧
        m.epoch_time = double_neg_one) ∧
    (∀ m, construct_default lnglat gps_accuracy search_radius = .ok m →
      m.epoch_time = double_neg_one ∧ m.epoch_time.eq (ieee.ofInt 11 52 (-1)) = true) := by
  have hw : ieee.widen 11 52 float_neg_one = double_neg_one := by decide
  constructor
  · intro ha hr
    refine ⟨⟨lnglat, gps_accuracy, search_radius, double_neg_one⟩, ?_, rfl⟩
    unfold construct_default
    rw [construct_eq_ok_iff, hw]
    exact ⟨ieee.lt_eq_false_of_ge ha, ieee.lt_eq_false_of_ge hr, rfl⟩
  · intro m h
    unfold construct_default at h
    rw [construct_eq_ok_iff, hw] at h
    obtain ⟨-, -, rfl⟩ := h
    refine ⟨rfl, ?_⟩
    show double_neg_one.eq (ieee.ofInt 11 52 (-1)) = true
    decide

/-- C4 at accuracy `0.f` and radius `0.f`. -/
theorem construct_default_epoch_time_witness :
    ∃ m : Measurement Unit, construct_default () float_zero float_zero = .ok m ∧
      m.epoch_time = double_neg_one :=
  (construct_default_epoch_time () float_zero float_zero).1 (by decide) (by decide)

/-- C10: `gps_accuracy` is checked first. With `gps_accuracy < 0` the message
is "non-negative gps_accuracy required" whatever `search_radius` is, and the
message "non-negative search_radius required" is thrown exactly when
`gps_accuracy < 0` is false and `search_radius < 0` is true. -/
theorem construct_checks_gps_accuracy_first (lnglat : PointLL)
    (gps_accuracy search_radius : float) (epoch_time : double) :
    (gps_accuracy.lt float_zero = true →
      construct lnglat gps_accuracy search_radius epoch_time =
        .error (exception.invalid_argument "non-negative gps_accuracy required")) ∧
    (construct lnglat gps_accuracy search_radius epoch_time =
        .error (exception.invalid_argument "non-negative search_radius required") ↔
      gps_accuracy.lt float_zero = false ∧ search_radius.lt float_zero = true) := by
  dsimp only [construct]
  cases h1 : gps_accuracy.lt float_zero <;> cases h2 : search_radius.lt float_zero <;>
    simp only [if_true, if_false, Bool.false_eq_true, reduceCtorEq, false_and, and_false,
      true_and, and_true, and_self, Except.error.injEq, exception.invalid_argument.injEq,
      imp_self, false_implies, true_implies, iff_true, iff_false, iff_self] <;> decide

/-- C10 at `gps_accuracy = -1.f` with `search_radius = -1.f`: the message
names `gps_accuracy`. -/
theorem construct_checks_gps_accuracy_first_witness :
    construct () float_neg_one float_neg_one double_neg_one =
      .error (exception.invalid_argument "non-negative gps_accuracy required") :=
  (construct_checks_gps_accuracy_first () float_neg_one float_neg_one double_neg_one).1
    (by decide)

end meili.Measurement

end valhalla

namespace valhalla

namespace ieee

variable {eb mb : Nat}

/-- Clearing the sign bit keeps a NaN a NaN. -/
theorem isNaN_fabs (x : ieee eb mb) : x.fabs.isNaN = x.isNaN := rfl

/-- Against a bound that is not NaN, `z > c` is false exactly when `z <= c`
holds or `z` is NaN. -/
theorem gt_eq_false_iff {z c : ieee eb mb} (hc : c.isNaN = false) :
    z.gt c = false ↔ (z.le c = true ∨ z.isNaN = true) := by
  unfold gt
  cases hz : z.isNaN
  · have hlt := lt_eq_true_iff c z
    have hle := le_eq_true_iff z c
    simp only [hz, hc, true_and] at hlt hle
    simp only [Bool.false_eq_true, or_false, hle]
    rw [← Bool.not_eq_true, hlt]
    omega
  · simp [lt, hz]

end ieee

/-- The bit patterns of the literals denote the intended numbers: the integral
ones are the conversions of 0, 1, 5, 6 and -1, and the fractional ones are the
exact differences `1 - .5 = .5`, `5 - 2.5 = 2.5`, `6 - 3.5 = 2.5` and
`.5 - .25 = .25`. -/
theorem literal_values :
    double_of_float float_zero = double_of_int 0 ∧
    double_of_float float_1 = double_of_int 1 ∧
    double_of_float float_5 = double_of_int 5 ∧
    double_of_float float_6 = double_of_int 6 ∧
    double_of_float float_neg_one = double_of_int (-1) ∧
    (double_of_float float_1).sub (double_of_float float_0_5) = double_of_float float_0_5 ∧
    (double_of_float float_5).sub (double_of_float float_2_5) = double_of_float float_2_5 ∧
    (double_of_float float_6).sub (double_of_float float_3_5) = double_of_float float_2_5 ∧
    (double_of_float float_0_5).sub double_0_25 = double_0_25 := by
  decide

namespace traffic_matcher

open meili

section overrides

variable {MatchResult MapMatcher GraphReader : Type}

/-- C9: both overrides of `testable_matcher` return what the base-class
method returns for the same arguments (value or exception, and the same
`GraphReader` afterwards); after `interpolate_matches` the members `matches`
and `matcher` are the arguments and, when the call returned, `interpolations`
is the returned value; after `form_segments` that returned, `segments` is the
returned value; the base-class part is untouched. -/
theorem testable_matcher_transparent
    (self : testable_matcher MatchResult MapMatcher GraphReader)
    (r : List MatchResult) (m : MapMatcher) (i : List (List interpolation_t))
    (reader : GraphReader) :
    ((self.interpolate_matches r m).1 = self.base.interpolate_matches r m ∧
      (self.interpolate_matches r m).2.«matches» = r ∧
      (self.interpolate_matches r m).2.matcher = m ∧
      (self.interpolate_matches r m).2.base = self.base ∧
      ∀ v, (self.interpolate_matches r m).1 = .ok v →
        (self.interpolate_matches r m).2.interpolations = v) ∧
    ((self.form_segments i reader).1 = (self.base.form_segments i reader).1 ∧
      (self.form_segments i reader).2.2 = (self.base.form_segments i reader).2 ∧
      (self.form_segments i reader).2.1.base = self.base ∧
      ∀ v, (self.form_segments i reader).1 = .ok v →
        (self.form_segments i reader).2.1.segments = v) := by
  constructor
  · unfold testable_matcher.interpolate_matches
    cases h : self.base.interpolate_matches r m with
    | error e => simp [h]
    | ok v => simp [h]
  · unfold testable_matcher.form_segments
    rcases h : self.base.form_segments i reader with ⟨res, r1⟩
    cases res with
    | error e => simp
    | ok v => simp

/-- C9 on `example_matcher`: after `interpolate_matches` the member
`interpolations` holds `example_groups`, the value the base call returns. -/
theorem testable_matcher_transparent_witness :
    (example_matcher.interpolate_matches [3, 4] ()).2.interpolations = example_groups ∧
      (example_matcher.form_segments example_groups ()).2.1.segments =
        meili.form_segments example_association example_groups :=
  ⟨(testable_matcher_transparent example_matcher [3, 4] () example_groups ()).1.2.2.2.2
      example_groups rfl,
    (testable_matcher_transparent example_matcher [3, 4] () example_groups ()).2.2.2.2
      (meili.form_segments example_association example_groups) rfl⟩

end overrides

/-- The five checks on one pair of records pass exactly when the shape
indices agree, neither time difference compares `> .25` and the `int` length
difference is at most 50 in absolute value. -/
theorem compare_record_eq_ok_iff (a b : traffic_segment_t) :
    compare_record a b = .ok () ↔
      a.begin_shape_index = b.begin_shape_index ∧
      a.end_shape_index = b.end_shape_index ∧
      (ieee.fabs (a.start_time.sub b.start_time)).gt double_0_25 = false ∧
      (ieee.fabs (a.end_time.sub b.end_time)).gt double_0_25 = false ∧
      (int_sub a.length b.length).natAbs ≤ 50 := by
  unfold compare_record
  split_ifs with h1 h2 h3 h4 h5 <;> simp_all

/-- The loop passes exactly when the checks pass at every common index. -/
theorem compare_loop_eq_ok_iff (a b : List traffic_segment_t) :
    compare_loop a b = .ok () ↔
      ∀ (i : Nat) (ha : i < a.length) (hb : i < b.length),
        compare_record a[i] b[i] = .ok () := by
  induction a generalizing b with
  | nil => simp [compare_loop]
  | cons x xs ih =>
    cases b with
    | nil => simp [compare_loop]
    | cons y ys =>
      unfold compare_loop
      cases hxy : compare_record x y with
      | error e =>
        simp only [reduceCtorEq, false_iff, not_forall]
        exact ⟨0, by simp, by simp, by simp [hxy]⟩
      | ok u =>
        simp only [ih]
        constructor
        · intro h i ha hb
          cases i with
          | zero => simpa using hxy
          | succ j =>
            simp only [List.getElem_cons_succ]
            exact h j (by simpa using ha) (by simpa using hb)
        · intro h i ha hb
          have := h (i + 1) (by simpa using ha) (by simpa using hb)
          simpa only [List.getElem_cons_succ] using this

/-- The check `std::fabs(x - y) > .25` is false exactly on the time
differences the comparison lets through. -/
theorem time_check_eq_false_iff (x y : double) :
    (ieee.fabs (x.sub y)).gt double_0_25 = false ↔ time_accepted x y := by
  rw [ieee.gt_eq_false_iff (by decide), ieee.isNaN_fabs]
  rfl

/-- The comparison throws nothing exactly when both lists have the same
number of records and the five checks pass at every index. -/
theorem compare_segments_eq_ok_iff_records (a b : List traffic_segment_t) :
    compare_segments a b = .ok () ↔
      a.length = b.length ∧
        ∀ (i : Nat) (ha : i < a.length) (hb : i < b.length),
          compare_record a[i] b[i] = .ok () := by
  unfold compare_segments
  by_cases hlen : a.length = b.length
  · simp only [hlen, bne_self_eq_false, Bool.false_eq_true, if_false, true_and,
      compare_loop_eq_ok_iff]
  · have hne : (a.length != b.length) = true := by simpa using hlen
    simp [hne, hlen]

/-- What the comparison decides: it throws nothing exactly when both lists
have the same number of records and at every index the shape indices are
equal, each time difference is at most 0.25 in absolute value or is NaN, and
the `int` difference of the lengths is at most 50 in absolute value. -/
theorem compare_segments_eq_ok_iff (a b : List traffic_segment_t) :
    compare_segments a b = .ok () ↔
      a.length = b.length ∧
        ∀ (i : Nat) (ha : i < a.length) (hb : i < b.length),
          a[i].begin_shape_index = b[i].begin_shape_index ∧
          a[i].end_shape_index = b[i].end_shape_index ∧
          time_accepted a[i].start_time b[i].start_time ∧
          time_accepted a[i].end_time b[i].end_time ∧
          |int_sub a[i].length b[i].length| ≤ 50 := by
  have habs : ∀ d : Int, d.natAbs ≤ 50 ↔ |d| ≤ 50 := by
    intro d
    rw [Int.abs_eq_natAbs]
    omega
  simp only [compare_segments_eq_ok_iff_records, compare_record_eq_ok_iff,
    time_check_eq_false_iff, habs]

/-- An `int` difference that does not overflow is the difference of the
integers. -/
theorem int_sub_eq_sub {x y : Int} (h1 : -2 ^ 31 ≤ x - y) (h2 : x - y < 2 ^ 31) :
    int_sub x y = x - y := by
  unfold int_sub
  omega

/-- Where no time difference is NaN and no length difference overflows, the
comparison accepts exactly the lists within the tolerances of the
specification. -/
theorem compare_segments_eq_ok_iff_within_tolerance (a b : List traffic_segment_t)
    (hnan : ∀ (i : Nat) (ha : i < a.length) (hb : i < b.length),
      (a[i].start_time.sub b[i].start_time).isNaN = false ∧
        (a[i].end_time.sub b[i].end_time).isNaN = false)
    (hint : ∀ (i : Nat) (ha : i < a.length) (hb : i < b.length),
      -2 ^ 31 ≤ a[i].length - b[i].length ∧ a[i].length - b[i].length < 2 ^ 31) :
    compare_segments a b = .ok () ↔ within_tolerance a b := by
  rw [compare_segments_eq_ok_iff]
  unfold within_tolerance time_accepted
  constructor
  · rintro ⟨hlen, h⟩
    refine ⟨hlen, fun i ha hb => ?_⟩
    obtain ⟨h1, h2, h3, h4, h5⟩ := h i ha hb
    obtain ⟨n1, n2⟩ := hnan i ha hb
    obtain ⟨r1, r2⟩ := hint i ha hb
    rw [int_sub_eq_sub r1 r2] at h5
    refine ⟨h1, h2, ?_, ?_, h5⟩
    · rcases h3 with h3 | h3
      · exact h3
      · rw [n1] at h3
        exact absurd h3 (by decide)
    · rcases h4 with h4 | h4
      · exact h4
      · rw [n2] at h4
        exact absurd h4 (by decide)
  · rintro ⟨hlen, h⟩
    refine ⟨hlen, fun i ha hb => ?_⟩
    obtain ⟨h1, h2, h3, h4, h5⟩ := h i ha hb
    obtain ⟨r1, r2⟩ := hint i ha hb
    rw [int_sub_eq_sub r1 r2]
    exact ⟨h1, h2, Or.inl h3, Or.inl h4, h5⟩

/-- C8, evaluated at a produced record with a NaN `start_time`: against the
expected record `{0, -1, 0, .5f, 0, -1}` the check
`std::fabs(a.start_time - b.start_time) > .25` is false, nothing is thrown and
the record is accepted, while `|a.start_time - b.start_time| <= 0.25` does not
hold. -/
theorem compare_segments_accepts_nan :
    compare_segments [⟨0, double_of_int (-1), 0, double_of_float float_0_5, 0, -1⟩]
        [⟨0, ieee.nan 11 52, 0, double_of_float float_0_5, 0, -1⟩] = .ok () ∧
      ¬ within_tolerance [⟨0, double_of_int (-1), 0, double_of_float float_0_5, 0, -1⟩]
        [⟨0, ieee.nan 11 52, 0, double_of_float float_0_5, 0, -1⟩] := by
  refine ⟨by decide, ?_⟩
  intro h
  have h0 := (h.2 0 (by decide) (by decide)).2.2.1
  revert h0
  decide

/-- The length check at `INT_MAX` against `INT_MIN`: the `int` difference
wraps to -1, nothing is thrown and the record is accepted, while the lengths
differ by more than 50. -/
theorem compare_segments_accepts_wrapped_length :
    compare_segments [⟨0, double_of_int (-1), 0, double_of_int (-1), 0, 2147483647⟩]
        [⟨0, double_of_int (-1), 0, double_of_int (-1), 0, -2147483648⟩] = .ok () ∧
      ¬ within_tolerance [⟨0, double_of_int (-1), 0, double_of_int (-1), 0, 2147483647⟩]
        [⟨0, double_of_int (-1), 0, double_of_int (-1), 0, -2147483648⟩] := by
  refine ⟨by decide, ?_⟩
  intro h
  have h0 := (h.2 0 (by decide) (by decide)).2.2.2.2
  revert h0
  decide

/-! ### The modelled Segment Former -/

/-- A cataloged length is never the sentinel: the length field is known
exactly when the record is full. -/
theorem length_field_known_iff (full : Bool) (n : Nat) :
    (if full then (n : Int) else -1) ≠ -1 ↔ full = true := by
  cases full
  · simp
  · simp only [if_true, ne_eq, iff_true]
    omega

/-- The record of a run has a known length exactly when both its times are
known. -/
theorem run_record_length_known (r : run) : length_known_iff_times_known (run_record r) := by
  unfold length_known_iff_times_known
  rw [← Bool.and_eq_true]
  exact length_field_known_iff _ _

/-- Every record of a group is the record of a run. -/
theorem mem_form_group (g : association) (ps : List interpolation_t) :
    ∀ (cur : Option run) (x : traffic_segment_t),
      x ∈ form_group g cur ps → ∃ r, x = run_record r := by
  induction ps with
  | nil =>
    intro cur x hx
    cases cur with
    | none => simp [form_group, close_run] at hx
    | some r => exact ⟨r, by simpa [form_group, close_run] using hx⟩
  | cons p ps ih =>
    intro cur x hx
    unfold form_group at hx
    split at hx
    · rcases List.mem_append.mp hx with h | h
      · cases cur with
        | none => simp [close_run] at h
        | some r => exact ⟨r, by simpa [close_run] using h⟩
      · exact ih _ _ h
    · split at hx
      · exact ih _ _ hx
      · split_ifs at hx
        · exact ih _ _ hx
        · rcases List.mem_cons.mp hx with h | h
          · exact ⟨_, h⟩
          · exact ih _ _ h

/-- Every record of the Segment Former is the record of a run. -/
theorem mem_form_segments (g : association) (groups : List (List interpolation_t))
    (x : traffic_segment_t) (hx : x ∈ meili.form_segments g groups) :
    ∃ r, x = run_record r := by
  induction groups with
  | nil => simp [meili.form_segments] at hx
  | cons group groups ih =>
    unfold meili.form_segments at hx
    rcases List.mem_append.mp hx with h | h
    · exact mem_form_group g group none x h
    · exact ih h

/-- C5: in every record the modelled Segment Former returns, and in every
expected record of the four test cases, `length` is known (not -1) exactly
when both `start_time` and `end_time` are known (not -1). -/
theorem length_known_iff_both_times_known :
    (∀ (g : association) (groups : List (List interpolation_t)),
      ∀ r ∈ meili.form_segments g groups, length_known_iff_times_known r) ∧
    (∀ tc ∈ test_cases, ∀ r ∈ tc.2, length_known_iff_times_known r) := by
  refine ⟨?_, by decide⟩
  intro g groups r hr
  obtain ⟨u, rfl⟩ := mem_form_segments g groups r hr
  exact run_record_length_known u

/-- C5 on the records formed from `example_groups`: a full record of segment 7
and a record of segment 8 open at its end. -/
theorem length_known_iff_both_times_known_witness :
    meili.form_segments example_association example_groups =
        [⟨7, double_of_int 0, 0, double_of_int 5, 0, 1000⟩,
          ⟨8, double_of_int 5, 1, double_of_int (-1), 1, -1⟩] ∧
      length_known_iff_times_known ⟨7, double_of_int 0, 0, double_of_int 5, 0, 1000⟩ :=
  ⟨by decide,
    length_known_iff_both_times_known.1 example_association example_groups _ (by decide)⟩

/-- The expected records of the four test cases, each for a trace of two
points, have `0 ≤ begin ≤ end ≤ 1` and end no later than the next record
begins. -/
theorem test_cases_shape_intervals_ordered :
    ∀ tc ∈ test_cases, shape_intervals_ordered tc.1.length tc.2 := by
  intro tc htc
  simp only [test_cases, List.mem_cons, List.mem_singleton, List.not_mem_nil, or_false] at htc
  rcases htc with rfl | rfl | rfl | rfl <;>
    simp [shape_intervals_ordered]

end traffic_matcher

end valhalla
